import Mathlib

/-!
Home Security dashboard — verification of the sensor/alarm core.

Shallow embedding of the sensor/alarm state machine and event-log pipeline
of the React component in `App.js`.  React's `useState` cells
(`sensors`, `armed`, `logs`, `alarmOn`, `selectedSensor`, `showModal`,
`simulate`) become the fields of `AppState`; each handler becomes a pure
function from `AppState` (plus the current timestamp, standing for
`nowISO()`) to `AppState`.  UI-only pieces (audio context, CSS, DOM) are
not modelled.
-/

/-- A history entry, as built in `simulateSensorEvent`:
`{ time: eventTime, type: newState, note: "<name> → <newState>" }`. -/
structure SensorEvent where
  time : String
  type : String
  note : String
deriving DecidableEq, Repr

/-- A sensor record, as in `initialSensors`:
`{ id, name, type, state, lastEvent, history }`. -/
structure Sensor where
  id : Nat
  name : String
  type : String
  state : String
  lastEvent : Option String
  history : List SensorEvent
deriving DecidableEq, Repr

/-- A log entry, as built in `pushLog`: `{ message, time }`. -/
structure LogEntry where
  message : String
  time : String
deriving DecidableEq, Repr

/-- The component's mutable state: the `useState` cells of `App` (the
audio-context ref is UI plumbing and is omitted). -/
structure AppState where
  sensors : List Sensor
  armed : Bool
  logs : List LogEntry
  showModal : Bool
  selectedSensor : Option Sensor
  simulate : Bool
  alarmOn : Bool
deriving DecidableEq, Repr

/-- Entry 1 of `initialSensors`. -/
def frontDoor : Sensor :=
  { id := 1, name := "Front Door", type := "door", state := "closed",
    lastEvent := none, history := [] }

/-- Entry 2 of `initialSensors`. -/
def backWindow : Sensor :=
  { id := 2, name := "Back Window", type := "window", state := "closed",
    lastEvent := none, history := [] }

/-- Entry 3 of `initialSensors`. -/
def livingRoomMotion : Sensor :=
  { id := 3, name := "Living Room Motion", type := "motion", state := "idle",
    lastEvent := none, history := [] }

/-- Entry 4 of `initialSensors`. -/
def garageCamera : Sensor :=
  { id := 4, name := "Garage Camera", type := "camera", state := "ok",
    lastEvent := none, history := [] }

/-- Entry 5 of `initialSensors`. -/
def kitchenSmoke : Sensor :=
  { id := 5, name := "Kitchen Smoke", type := "smoke", state := "ok",
    lastEvent := none, history := [] }

/-- The `initialSensors` constant of `App.js`. -/
def initialSensors : List Sensor :=
  [frontDoor, backWindow, livingRoomMotion, garageCamera, kitchenSmoke]

/-- The component state on a fresh start with no stored snapshot: the
`useState` default of every cell. -/
def initialAppState : AppState :=
  { sensors := initialSensors, armed := false, logs := [],
    showModal := false, selectedSensor := none, simulate := true,
    alarmOn := false }

/-- The `pushLog(message, time)` operation: prepend `{message, time}` and truncate to 200
entries.  The JS `time || nowISO()` fallback is resolved by the caller:
every call site in this file passes the event timestamp (`now`). -/
def pushLog (message time : String) (logs : List LogEntry) : List LogEntry :=
  ({ message := message, time := time } :: logs).take 200

/-- The next state computed by `simulateSensorEvent` when the alarm is not
silencing: `forcedState` verbatim when truthy (a non-empty string),
otherwise the per-type toggle chain, with the `ok↔alert` fallback for
unknown types. -/
def nextState (s : Sensor) (forced : Option String) : String :=
  match forced with
  | some f =>
      if f = "" then nextToggle s else f
  | none => nextToggle s
where
  /-- The `else if` chain over `s.type` in `simulateSensorEvent`. -/
  nextToggle (s : Sensor) : String :=
    if s.type = "door" ∨ s.type = "window" then
      if s.state = "open" then "closed" else "open"
    else if s.type = "motion" then
      if s.state = "motion" then "idle" else "motion"
    else if s.type = "camera" then
      if s.state = "ok" then "alert" else "ok"
    else if s.type = "smoke" then
      if s.state = "alarm" then "ok" else "alarm"
    else
      if s.state = "ok" then "alert" else "ok"

/-- The abnormal-state test of the arming check:
`newState === "open" || newState === "motion" || newState === "alarm" ||
newState === "alert"`. -/
def abnormal (state : String) : Prop :=
  state = "open" ∨ state = "motion" ∨ state = "alarm" ∨ state = "alert"

instance (state : String) : Decidable (abnormal state) := by
  unfold abnormal; infer_instance

/-- The history update `[event, ...s.history].slice(0, 30)`. -/
def pushHistory (e : SensorEvent) (h : List SensorEvent) : List SensorEvent :=
  (e :: h).take 30

/-- One step of the `prev.map` body of `simulateSensorEvent`, for one
sensor `s`: the replacement record, the `pushLog` calls it makes (in call
order), and the value passed to `setAlarmOn`, when any.  The branch
conditions read the closure's `alarmOn` and `armed`, i.e. the values held
in `st` when the handler fired. -/
def sensorUpdate (st : AppState) (sensorId : Nat) (forced : Option String)
    (now : String) (s : Sensor) : Sensor × List LogEntry × Option Bool :=
  if s.id ≠ sensorId then (s, [], none)
  else if st.alarmOn then
    (s, [{ message := "🔕 Alarm stopped manually via " ++ s.name, time := now }],
     some false)
  else
    let newState := nextState s forced
    let event : SensorEvent :=
      { time := now, type := newState, note := s.name ++ " → " ++ newState }
    let newHistory := pushHistory event s.history
    let s' : Sensor :=
      { s with state := newState, lastEvent := some now, history := newHistory }
    let stateLog : LogEntry := { message := s.name ++ " — " ++ newState, time := now }
    if st.armed ∧ abnormal newState then
      (s', [stateLog,
            { message := "🚨 ALARM TRIGGERED: " ++ s.name ++
                " detected activity while system armed", time := now }],
       some true)
    else
      (s', [stateLog], none)

/-- The `simulateSensorEvent(sensorId, forcedState)` handler: map `sensorUpdate` over
the sensor list, apply its queued `pushLog` calls in order, and let the
last queued `setAlarmOn` value win (React overwrite semantics); with no
queued value `alarmOn` is unchanged. -/
def simulateSensorEvent (st : AppState) (sensorId : Nat)
    (forced : Option String) (now : String) : AppState :=
  let results := st.sensors.map (sensorUpdate st sensorId forced now)
  { st with
    sensors := results.map Prod.fst
    logs := ((results.map fun r => r.2.1).flatten).foldl
      (fun logs e => pushLog e.message e.time logs) st.logs
    alarmOn := ((results.filterMap fun r => r.2.2).getLast?).getD st.alarmOn }

/-- The reset state installed by `performSensorAck`, per sensor type. -/
def ackState (s : Sensor) : String :=
  if s.type = "motion" then "idle"
  else if s.type = "smoke" then "ok"
  else if s.type = "camera" then "ok"
  else "closed"

/-- The JS template `Acknowledged ${selectedSensor?.name}`: the optional
chaining yields `undefined` when no sensor is selected, which the template
renders as the string "undefined". -/
def selectedName : Option Sensor → String
  | some sel => sel.name
  | none => "undefined"

/-- The `performSensorAck(sensorId)` handler: reset the matched sensor's state per
type, log `Acknowledged <selectedSensor?.name>` (note: the name comes from
the `selectedSensor` state cell, not from the sensor looked up by
`sensorId`), and clear `alarmOn` unconditionally. -/
def performSensorAck (st : AppState) (sensorId : Nat) (now : String) : AppState :=
  { st with
    sensors := st.sensors.map fun s =>
      if s.id = sensorId then { s with state := ackState s } else s
    logs := pushLog ("Acknowledged " ++ selectedName st.selectedSensor) now st.logs
    alarmOn := false }

/-- The `armSystem()` handler. -/
def armSystem (st : AppState) (now : String) : AppState :=
  { st with
    armed := true
    logs := pushLog "System armed" now st.logs }

/-- The `disarmSystem()` handler. -/
def disarmSystem (st : AppState) (now : String) : AppState :=
  { st with
    armed := false
    alarmOn := false
    logs := pushLog "System disarmed" now st.logs }

/-- The "Sound Alarm" checkbox handler: flip `alarmOn` and log
"Alarm silenced"/"Alarm sounded" according to the prior value. -/
def toggleAlarm (st : AppState) (now : String) : AppState :=
  { st with
    alarmOn := !st.alarmOn
    logs := pushLog (if st.alarmOn then "Alarm silenced" else "Alarm sounded")
      now st.logs }

/-- The "Clear Logs" button handler: `setLogs([])` then
`pushLog("Cleared logs")`. -/
def clearLogs (st : AppState) (now : String) : AppState :=
  { st with logs := pushLog "Cleared logs" now [] }

/-- The "Stop/Start Simulation" button handler. -/
def toggleSimulation (st : AppState) (now : String) : AppState :=
  { st with
    simulate := !st.simulate
    logs := pushLog ("Simulation " ++ (if st.simulate then "disabled" else "enabled"))
      now st.logs }

/-- The `openSensorModal(sensor)` handler. -/
def openSensorModal (st : AppState) (s : Sensor) : AppState :=
  { st with
    selectedSensor := some s
    showModal := true }

/-- The "Check" button handler: `pushLog("Checked <name>")`. -/
def checkSensor (st : AppState) (name now : String) : AppState :=
  { st with logs := pushLog ("Checked " ++ name) now st.logs }

/-! The boundary command set and the bounded-history invariant. -/

/-- One command at the core's boundary (§6 of the component: the button
handlers plus the trigger entry point shared by the simulation driver). -/
inductive Op where
  | trigger (sensorId : Nat) (forced : Option String) (now : String)
  | ack (sensorId : Nat) (now : String)
  | arm (now : String)
  | disarm (now : String)
  | alarmToggle (now : String)
  | logsClear (now : String)
  | simToggle (now : String)
  | modalOpen (s : Sensor)
  | check (name : String) (now : String)

/-- Dispatch one command to its handler. -/
def applyOp (st : AppState) : Op → AppState
  | .trigger sensorId forced now => simulateSensorEvent st sensorId forced now
  | .ack sensorId now => performSensorAck st sensorId now
  | .arm now => armSystem st now
  | .disarm now => disarmSystem st now
  | .alarmToggle now => toggleAlarm st now
  | .logsClear now => clearLogs st now
  | .simToggle now => toggleSimulation st now
  | .modalOpen s => openSensorModal st s
  | .check name now => checkSensor st name now

/-- Run a sequence of commands. -/
def run (st : AppState) (ops : List Op) : AppState :=
  ops.foldl applyOp st

/-- The capacity bounds: every history holds at most 30 events and the log
holds at most 200 entries. -/
def Bounded (st : AppState) : Prop :=
  (∀ s ∈ st.sensors, s.history.length ≤ 30) ∧ st.logs.length ≤ 200

/-! Persistence: localStorage snapshot, load and save.

`App` persists `JSON.stringify({ sensors, armed, logs })` under the fixed
key and reads it back field by field in the three `useState`
initializers, each wrapped in `try { ... } catch (e) {}` with an in-code
default.  We model the store's content as: absent (or empty, which is
falsy), present but not valid JSON (`JSON.parse` throws), or present and
parsed to a JSON value.  `JSON.stringify`/`JSON.parse` round-trip on JSON
values is the identity, so `save` stores the encoded value itself. -/

/-- A parsed JSON value.  The only numbers this app ever stores are sensor
ids, which are nonnegative integers, so `jnum` carries a `Nat`. -/
inductive JVal where
  | jnull
  | jbool (b : Bool)
  | jnum (n : Nat)
  | jstr (s : String)
  | jarr (elems : List JVal)
  | jobj (fields : List (String × JVal))

/-- First field of an object with the given key, JS member-access order. -/
def getField : List (String × JVal) → String → Option JVal
  | [], _ => none
  | (k, v) :: rest, f => if k = f then some v else getField rest f

/-- JS member access `v.field` on a value produced by `JSON.parse`: a
field lookup on an object, `undefined` (here `none`) on any other
non-null value (primitives are boxed, arrays have no such field); access
on `null` throws and is treated separately in `loadField`. -/
def jsGet : JVal → String → Option JVal
  | .jobj fields, f => getField fields f
  | _, _ => none

/-- The content of the store under the fixed key at startup. -/
inductive StoreState where
  | missing
  | unparsable
  | parsed (v : JVal)

/-- One `useState` initializer of `App`: `none` when the default path runs
(key missing or falsy, `JSON.parse` threw, or the parsed value is `null`
so that member access threw inside the `try`); otherwise the raw JS value
of the field, where the inner `none` is JS `undefined`. -/
def loadField (store : StoreState) (field : String) : Option (Option JVal) :=
  match store with
  | .missing => none
  | .unparsable => none
  | .parsed .jnull => none
  | .parsed v => some (jsGet v field)

/-- The `sensors` initializer: `initialSensors` on the default path, else
the raw value of `.sensors` (possibly `undefined`). -/
def loadedSensors (store : StoreState) : List Sensor ⊕ Option JVal :=
  match loadField store "sensors" with
  | none => Sum.inl initialSensors
  | some v => Sum.inr v

/-- The `armed` initializer: `false` on the default path, else the raw
value of `.armed`. -/
def loadedArmed (store : StoreState) : Bool ⊕ Option JVal :=
  match loadField store "armed" with
  | none => Sum.inl false
  | some v => Sum.inr v

/-- The `logs` initializer: `[]` on the default path, else the raw value
of `.logs`. -/
def loadedLogs (store : StoreState) : List LogEntry ⊕ Option JVal :=
  match loadField store "logs" with
  | none => Sum.inl ([] : List LogEntry)
  | some v => Sum.inr v

/-- The values the component state starts from: the three persisted fields
from their initializers, and `alarmOn` from its literal `useState(false)`
default — `alarmOn` is not read from the store at all. -/
structure StartupValues where
  sensorsInit : List Sensor ⊕ Option JVal
  armedInit : Bool ⊕ Option JVal
  logsInit : List LogEntry ⊕ Option JVal
  alarmOnInit : Bool

/-- Run all four initializers against the store. -/
def startupValues (store : StoreState) : StartupValues :=
  { sensorsInit := loadedSensors store
    armedInit := loadedArmed store
    logsInit := loadedLogs store
    alarmOnInit := false }

/-- The unit of persistence written by the `useEffect` on
`[sensors, armed, logs]`. -/
structure Snapshot where
  sensors : List Sensor
  armed : Bool
  logs : List LogEntry
deriving DecidableEq, Repr

/-- What the persist effect serializes: `{ sensors, armed, logs }` — note
`alarmOn` is not part of it. -/
def snapshotOf (st : AppState) : Snapshot :=
  { sensors := st.sensors, armed := st.armed, logs := st.logs }

/-- JSON encoding of a history entry. -/
def encodeEvent (e : SensorEvent) : JVal :=
  .jobj [("time", .jstr e.time), ("type", .jstr e.type), ("note", .jstr e.note)]

/-- JSON encoding of `lastEvent`: `null` when absent (`JSON.stringify`
keeps a `null` field). -/
def encodeLastEvent : Option String → JVal
  | some t => .jstr t
  | none => .jnull

/-- JSON encoding of a sensor record. -/
def encodeSensor (s : Sensor) : JVal :=
  .jobj [("id", .jnum s.id), ("name", .jstr s.name), ("type", .jstr s.type),
         ("state", .jstr s.state), ("lastEvent", encodeLastEvent s.lastEvent),
         ("history", .jarr (s.history.map encodeEvent))]

/-- JSON encoding of a log entry. -/
def encodeLog (l : LogEntry) : JVal :=
  .jobj [("message", .jstr l.message), ("time", .jstr l.time)]

/-- JSON encoding of the persisted snapshot object. -/
def encodeSnapshot (snap : Snapshot) : JVal :=
  .jobj [("sensors", .jarr (snap.sensors.map encodeSensor)),
         ("armed", .jbool snap.armed),
         ("logs", .jarr (snap.logs.map encodeLog))]

/-- Modelling `localStorage.setItem(STORAGE_KEY, JSON.stringify(snapshot))` with a
successful write: the store afterwards parses back to the encoded value. -/
def save (snap : Snapshot) : StoreState :=
  .parsed (encodeSnapshot snap)

/-- Decode a list of JSON values element-wise, failing if any element
fails. -/
def decodeList (dec : JVal → Option α) : List JVal → Option (List α)
  | [] => some []
  | v :: vs =>
    match dec v, decodeList dec vs with
    | some x, some xs => some (x :: xs)
    | _, _ => none

/-- Typed read-back of a history entry (inverse of `encodeEvent`). -/
def decodeEvent (v : JVal) : Option SensorEvent :=
  match jsGet v "time", jsGet v "type", jsGet v "note" with
  | some (.jstr time), some (.jstr type), some (.jstr note) =>
      some { time := time, type := type, note := note }
  | _, _, _ => none

/-- Typed read-back of `lastEvent`. -/
def decodeLastEvent : JVal → Option (Option String)
  | .jnull => some none
  | .jstr t => some (some t)
  | _ => none

/-- Typed read-back of a sensor record (inverse of `encodeSensor`). -/
def decodeSensor (v : JVal) : Option Sensor :=
  match jsGet v "id", jsGet v "name", jsGet v "type", jsGet v "state",
      jsGet v "lastEvent", jsGet v "history" with
  | some (.jnum id), some (.jstr name), some (.jstr type), some (.jstr state),
      some lastEv, some (.jarr hist) =>
    match decodeLastEvent lastEv, decodeList decodeEvent hist with
    | some le, some h =>
        some { id := id, name := name, type := type, state := state,
               lastEvent := le, history := h }
    | _, _ => none
  | _, _, _, _, _, _ => none

/-- Typed read-back of a log entry (inverse of `encodeLog`). -/
def decodeLog (v : JVal) : Option LogEntry :=
  match jsGet v "message", jsGet v "time" with
  | some (.jstr message), some (.jstr time) =>
      some { message := message, time := time }
  | _, _ => none

/-- Typed read-back of the whole snapshot from the three initializers'
raw values; `none` when any field took the default path or is not of the
stored shape. -/
def decodeSnapshot (store : StoreState) : Option Snapshot :=
  match loadedSensors store, loadedArmed store, loadedLogs store with
  | Sum.inr (some (.jarr ss)), Sum.inr (some (.jbool b)),
      Sum.inr (some (.jarr ls)) =>
    match decodeList decodeSensor ss, decodeList decodeLog ls with
    | some sensors, some logs => some { sensors := sensors, armed := b, logs := logs }
    | _, _ => none
  | _, _, _ => none

/-- The per-type valid state domain of the data model (door/window ∈
{open, closed}; motion ∈ {idle, motion}; camera ∈ {ok, alert}; smoke ∈
{ok, alarm}). -/
def validState (ty st : String) : Prop :=
  (ty = "door" ∨ ty = "window") ∧ (st = "open" ∨ st = "closed") ∨
  ty = "motion" ∧ (st = "idle" ∨ st = "motion") ∨
  ty = "camera" ∧ (st = "ok" ∨ st = "alert") ∨
  ty = "smoke" ∧ (st = "ok" ∨ st = "alarm")

instance (ty st : String) : Decidable (validState ty st) := by
  unfold validState; infer_instance

/-! Helper lemmas about `simulateSensorEvent`. -/

lemma sensorUpdate_unmatched (st : AppState) (sensorId : Nat)
    (forced : Option String) (now : String) (x : Sensor) (hx : x.id ≠ sensorId) :
    sensorUpdate st sensorId forced now x = (x, [], none) := by
  simp [sensorUpdate, hx]

lemma map_fst_unmatched (st : AppState) (sensorId : Nat) (forced : Option String)
    (now : String) (l : List Sensor) (h : ∀ x ∈ l, x.id ≠ sensorId) :
    (l.map (sensorUpdate st sensorId forced now)).map Prod.fst = l := by
  induction l with
  | nil => rfl
  | cons a l ih =>
    have ha : a.id ≠ sensorId := h a (List.mem_cons_self a l)
    have hl : ∀ x ∈ l, x.id ≠ sensorId := fun x hx => h x (List.mem_cons_of_mem a hx)
    simp [sensorUpdate_unmatched st sensorId forced now a ha, ih hl]

lemma logs_unmatched (st : AppState) (sensorId : Nat) (forced : Option String)
    (now : String) (l : List Sensor) (h : ∀ x ∈ l, x.id ≠ sensorId) :
    ((l.map (sensorUpdate st sensorId forced now)).map (fun r => r.2.1)).flatten = [] := by
  induction l with
  | nil => rfl
  | cons a l ih =>
    have ha : a.id ≠ sensorId := h a (List.mem_cons_self a l)
    have hl : ∀ x ∈ l, x.id ≠ sensorId := fun x hx => h x (List.mem_cons_of_mem a hx)
    simp only [List.map_cons, List.flatten_cons,
      sensorUpdate_unmatched st sensorId forced now a ha, ih hl]
    rfl

lemma alarm_unmatched (st : AppState) (sensorId : Nat) (forced : Option String)
    (now : String) (l : List Sensor) (h : ∀ x ∈ l, x.id ≠ sensorId) :
    (l.map (sensorUpdate st sensorId forced now)).filterMap (fun r => r.2.2) = [] := by
  induction l with
  | nil => rfl
  | cons a l ih =>
    have ha : a.id ≠ sensorId := h a (List.mem_cons_self a l)
    have hl : ∀ x ∈ l, x.id ≠ sensorId := fun x hx => h x (List.mem_cons_of_mem a hx)
    simp [sensorUpdate_unmatched st sensorId forced now a ha, ih hl]

/-- Sensors after a trigger, when exactly one list position matches the id. -/
lemma sim_sensors_split (st : AppState) (sensorId : Nat) (forced : Option String)
    (now : String) (pre post : List Sensor) (s : Sensor)
    (hsplit : st.sensors = pre ++ s :: post)
    (hpre : ∀ x ∈ pre, x.id ≠ sensorId) (hpost : ∀ x ∈ post, x.id ≠ sensorId) :
    (simulateSensorEvent st sensorId forced now).sensors =
      pre ++ (sensorUpdate st sensorId forced now s).1 :: post := by
  simp only [simulateSensorEvent, hsplit, List.map_append, List.map_cons]
  rw [map_fst_unmatched st sensorId forced now pre hpre,
      map_fst_unmatched st sensorId forced now post hpost]

/-- Log after a trigger: exactly the matched sensor's queued `pushLog`
calls, applied in order. -/
lemma sim_logs_split (st : AppState) (sensorId : Nat) (forced : Option String)
    (now : String) (pre post : List Sensor) (s : Sensor)
    (hsplit : st.sensors = pre ++ s :: post)
    (hpre : ∀ x ∈ pre, x.id ≠ sensorId) (hpost : ∀ x ∈ post, x.id ≠ sensorId) :
    (simulateSensorEvent st sensorId forced now).logs =
      ((sensorUpdate st sensorId forced now s).2.1).foldl
        (fun logs e => pushLog e.message e.time logs) st.logs := by
  simp only [simulateSensorEvent, hsplit, List.map_append, List.map_cons,
    List.flatten_append, List.flatten_cons]
  rw [logs_unmatched st sensorId forced now pre hpre,
      logs_unmatched st sensorId forced now post hpost]
  simp

/-- Alarm flag after a trigger: the matched sensor's queued `setAlarmOn`
value when there is one, the prior value otherwise. -/
lemma sim_alarm_split (st : AppState) (sensorId : Nat) (forced : Option String)
    (now : String) (pre post : List Sensor) (s : Sensor)
    (hsplit : st.sensors = pre ++ s :: post)
    (hpre : ∀ x ∈ pre, x.id ≠ sensorId) (hpost : ∀ x ∈ post, x.id ≠ sensorId) :
    (simulateSensorEvent st sensorId forced now).alarmOn =
      ((sensorUpdate st sensorId forced now s).2.2).getD st.alarmOn := by
  simp only [simulateSensorEvent, hsplit, List.map_append, List.map_cons,
    List.filterMap_append, List.filterMap_cons]
  rw [alarm_unmatched st sensorId forced now pre hpre,
      alarm_unmatched st sensorId forced now post hpost]
  cases h2 : (sensorUpdate st sensorId forced now s).2.2 <;> simp [h2]

/-- A trigger never touches `armed`, the modal fields or the simulate
flag. -/
lemma sim_frame_fields (st : AppState) (sensorId : Nat) (forced : Option String)
    (now : String) :
    (simulateSensorEvent st sensorId forced now).armed = st.armed ∧
    (simulateSensorEvent st sensorId forced now).selectedSensor = st.selectedSensor ∧
    (simulateSensorEvent st sensorId forced now).showModal = st.showModal ∧
    (simulateSensorEvent st sensorId forced now).simulate = st.simulate := by
  simp [simulateSensorEvent]

/-- A trigger with an id no sensor has is a no-op on the whole state. -/
lemma sim_noop_of_unmatched (st : AppState) (sensorId : Nat)
    (forced : Option String) (now : String)
    (h : ∀ x ∈ st.sensors, x.id ≠ sensorId) :
    simulateSensorEvent st sensorId forced now = st := by
  simp only [simulateSensorEvent]
  rw [map_fst_unmatched st sensorId forced now st.sensors h,
      logs_unmatched st sensorId forced now st.sensors h,
      alarm_unmatched st sensorId forced now st.sensors h]
  rfl

/-! Claim theorems. -/

/-- C1: For every sensor id that exists in the registry (the sensor
`s`, the unique entry with its id), if `alarmOn` is true when
`triggerSensor(id)` is called, then afterwards `alarmOn` is false, the
targeted sensor's record — state, history and `lastEvent` alike — and
every other sensor are unchanged, and exactly one log entry
`"Alarm stopped manually via <sensorName>"` (the source prefixes the 🔕
emoji) is appended, regardless of the sensor's type and of any
`forcedState` argument: the normal transition logic is skipped. -/
theorem trigger_silences_alarm (st : AppState) (forced : Option String)
    (now : String) (pre post : List Sensor) (s : Sensor)
    (hsplit : st.sensors = pre ++ s :: post)
    (hpre : ∀ x ∈ pre, x.id ≠ s.id) (hpost : ∀ x ∈ post, x.id ≠ s.id)
    (halarm : st.alarmOn = true) :
    (simulateSensorEvent st s.id forced now).alarmOn = false ∧
    (simulateSensorEvent st s.id forced now).sensors = st.sensors ∧
    (simulateSensorEvent st s.id forced now).logs =
      pushLog ("🔕 " ++ ("Alarm stopped manually via " ++ s.name)) now st.logs := by
  have hupd : sensorUpdate st s.id forced now s =
      (s, [{ message := "🔕 Alarm stopped manually via " ++ s.name, time := now }],
       some false) := by
    simp [sensorUpdate, halarm]
  have hmsg : "🔕 Alarm stopped manually via " ++ s.name =
      "🔕 " ++ ("Alarm stopped manually via " ++ s.name) := by
    rw [← String.append_assoc]; rfl
  refine ⟨?_, ?_, ?_⟩
  · rw [sim_alarm_split st s.id forced now pre post s hsplit hpre hpost, hupd]
    rfl
  · rw [sim_sensors_split st s.id forced now pre post s hsplit hpre hpost, hupd,
        ← hsplit]
  · rw [sim_logs_split st s.id forced now pre post s hsplit hpre hpost, hupd,
        ← hmsg]
    rfl

/-- Witness for C1: the initial registry with the alarm ringing; triggering
Front Door silences the alarm, changes no sensor, and logs the silence
entry. -/
theorem trigger_silences_alarm_witness :
    (simulateSensorEvent { initialAppState with alarmOn := true } 1 none "T").alarmOn
        = false ∧
    (simulateSensorEvent { initialAppState with alarmOn := true } 1 none "T").sensors
        = ({ initialAppState with alarmOn := true } : AppState).sensors ∧
    (simulateSensorEvent { initialAppState with alarmOn := true } 1 none "T").logs
        = pushLog ("🔕 " ++ ("Alarm stopped manually via " ++ "Front Door")) "T" [] :=
  trigger_silences_alarm { initialAppState with alarmOn := true } none "T"
    [] [backWindow, livingRoomMotion, garageCamera, kitchenSmoke] frontDoor
    rfl (by decide) (by decide) rfl

/-- C2: For every non-silencing sensor transition (`alarmOn` false at
the start of the `triggerSensor` call) on the unique registry sensor with
the targeted id: if `armed` is true and the sensor's new state is abnormal
(in {open, motion, alarm, alert}), then afterwards `alarmOn` is true and a
log entry `"ALARM TRIGGERED: <name> detected activity while system armed"`
(the source prefixes the 🚨 emoji) is appended on top of the state-change
entry; if `armed` is false or the new state is not abnormal, `alarmOn` is
left unchanged by the call. -/
theorem trigger_arming_check (st : AppState) (forced : Option String)
    (now : String) (pre post : List Sensor) (s : Sensor)
    (hsplit : st.sensors = pre ++ s :: post)
    (hpre : ∀ x ∈ pre, x.id ≠ s.id) (hpost : ∀ x ∈ post, x.id ≠ s.id)
    (halarm : st.alarmOn = false) :
    ((st.armed = true ∧ abnormal (nextState s forced)) →
      (simulateSensorEvent st s.id forced now).alarmOn = true ∧
      (simulateSensorEvent st s.id forced now).logs =
        pushLog ("🚨 " ++ ("ALARM TRIGGERED: " ++ s.name ++
            " detected activity while system armed")) now
          (pushLog (s.name ++ " — " ++ nextState s forced) now st.logs)) ∧
    ((st.armed = false ∨ ¬ abnormal (nextState s forced)) →
      (simulateSensorEvent st s.id forced now).alarmOn = st.alarmOn) := by
  have hmsg : "🚨 ALARM TRIGGERED: " ++ s.name ++
      " detected activity while system armed" =
      "🚨 " ++ ("ALARM TRIGGERED: " ++ s.name ++
        " detected activity while system armed") := by
    rw [← String.append_assoc, ← String.append_assoc]; rfl
  constructor
  · rintro ⟨harmed, habn⟩
    have hupd : (sensorUpdate st s.id forced now s).2 =
        ([{ message := s.name ++ " — " ++ nextState s forced, time := now },
          { message := "🚨 ALARM TRIGGERED: " ++ s.name ++
              " detected activity while system armed", time := now }],
         some true) := by
      simp [sensorUpdate, halarm, harmed, habn]
    refine ⟨?_, ?_⟩
    · rw [sim_alarm_split st s.id forced now pre post s hsplit hpre hpost, hupd]
      rfl
    · rw [sim_logs_split st s.id forced now pre post s hsplit hpre hpost, hupd,
          ← hmsg]
      rfl
  · intro hno
    have hcond : ¬ (st.armed ∧ abnormal (nextState s forced)) := by
      rcases hno with h | h
      · rintro ⟨h1, _⟩; rw [h] at h1; exact Bool.false_ne_true h1
      · rintro ⟨_, h2⟩; exact h h2
    have hupd : (sensorUpdate st s.id forced now s).2 =
        ([{ message := s.name ++ " — " ++ nextState s forced, time := now }],
         none) := by
      simp [sensorUpdate, halarm, hcond]
    rw [sim_alarm_split st s.id forced now pre post s hsplit hpre hpost, hupd]
    rfl

/-- C6: Every `triggerSensor(sensorId)` call replaces at most the one
sensor record whose id equals `sensorId`: the sensor list keeps its
length, every position holding a sensor with a different id is untouched,
and `armed` is never changed; when no sensor has the id, the call is a
full no-op on the whole state (and, the embedding being total, it raises
nothing). -/
theorem trigger_frame (st : AppState) (sensorId : Nat) (forced : Option String)
    (now : String) :
    (simulateSensorEvent st sensorId forced now).sensors.length =
      st.sensors.length ∧
    (∀ (i : Nat) (x : Sensor), st.sensors[i]? = some x → x.id ≠ sensorId →
      (simulateSensorEvent st sensorId forced now).sensors[i]? = some x) ∧
    (simulateSensorEvent st sensorId forced now).armed = st.armed ∧
    ((∀ x ∈ st.sensors, x.id ≠ sensorId) →
      simulateSensorEvent st sensorId forced now = st) := by
  refine ⟨?_, ?_, ?_, sim_noop_of_unmatched st sensorId forced now⟩
  · simp [simulateSensorEvent]
  · intro i x hx hid
    simp only [simulateSensorEvent, List.map_map, List.getElem?_map, hx]
    simp [Function.comp, sensorUpdate_unmatched st sensorId forced now x hid]
  · simp [simulateSensorEvent]

/-- Witness for C6: an unknown id (99) on the fresh state is a full no-op,
and position 0 (Front Door, id 1 ≠ 99) is untouched. -/
theorem trigger_frame_witness :
    (simulateSensorEvent initialAppState 99 none "T").sensors.length =
      initialAppState.sensors.length ∧
    (simulateSensorEvent initialAppState 99 none "T").sensors[0]? =
      some frontDoor ∧
    simulateSensorEvent initialAppState 99 none "T" = initialAppState :=
  ⟨(trigger_frame initialAppState 99 none "T").1,
   (trigger_frame initialAppState 99 none "T").2.1 0 frontDoor rfl (by decide),
   (trigger_frame initialAppState 99 none "T").2.2.2 (by decide)⟩

/-- C3 counterexample: a `triggerSensor` call made while the alarm is
not ringing that passes a `forcedState` installs it verbatim: forcing
"open" onto the smoke sensor (id 5, type "smoke") leaves it in state
"open", which is not in the smoke domain {ok, alarm}. -/
theorem forced_state_escapes_domain :
    initialAppState.alarmOn = false ∧
    initialAppState.sensors[4]?.map Sensor.type = some "smoke" ∧
    (simulateSensorEvent initialAppState 5 (some "open") "T").sensors[4]?.map
        Sensor.state = some "open" ∧
    ¬ validState "smoke" "open" := by
  decide

/-- C3 amended: for the unique registry sensor with the targeted id,
of one of the five known types, and every `triggerSensor` call made while
the alarm is not ringing that passes no truthy `forcedState` (`null` or
the empty string, both falsy), the sensor's state after the call is a
member of that sensor's type's valid domain; a truthy `forcedState` is
installed verbatim instead, even outside the domain. -/
theorem trigger_state_in_domain (st : AppState) (forced : Option String)
    (now : String) (pre post : List Sensor) (s : Sensor)
    (hsplit : st.sensors = pre ++ s :: post)
    (hpre : ∀ x ∈ pre, x.id ≠ s.id) (hpost : ∀ x ∈ post, x.id ≠ s.id)
    (halarm : st.alarmOn = false)
    (hforced : forced = none ∨ forced = some "")
    (hty : s.type = "door" ∨ s.type = "window" ∨ s.type = "motion" ∨
      s.type = "camera" ∨ s.type = "smoke") :
    (simulateSensorEvent st s.id forced now).sensors =
      pre ++ (sensorUpdate st s.id forced now s).1 :: post ∧
    (sensorUpdate st s.id forced now s).1.state = nextState s forced ∧
    validState s.type (nextState s forced) := by
  refine ⟨sim_sensors_split st s.id forced now pre post s hsplit hpre hpost,
    ?_, ?_⟩
  · simp only [sensorUpdate, ne_eq, not_true_eq_false, if_false, halarm,
      Bool.false_eq_true]
    split
    · rfl
    · rfl
  · have hnext : nextState s forced = nextState.nextToggle s := by
      rcases hforced with h | h <;> simp [nextState, h]
    rw [hnext]
    rcases hty with h | h | h | h | h <;>
      simp only [nextState.nextToggle, validState, h] <;>
      split_ifs <;> simp_all

/-- Witness for the amended C3: triggering the smoke sensor of the fresh
state (no forced state) lands it in the smoke domain. -/
theorem trigger_state_in_domain_witness :
    (simulateSensorEvent initialAppState 5 none "T").sensors =
      [frontDoor, backWindow, livingRoomMotion, garageCamera] ++
        (sensorUpdate initialAppState 5 none "T" kitchenSmoke).1 :: [] ∧
    (sensorUpdate initialAppState 5 none "T" kitchenSmoke).1.state =
      nextState kitchenSmoke none ∧
    validState "smoke" (nextState kitchenSmoke none) :=
  trigger_state_in_domain initialAppState none "T"
    [frontDoor, backWindow, livingRoomMotion, garageCamera] [] kitchenSmoke
    rfl (by decide) (by decide) rfl (Or.inl rfl)
    (Or.inr (Or.inr (Or.inr (Or.inr rfl))))

/-- The ack `prev.map` leaves every sensor with a different id alone. -/
lemma ackMap_unmatched (sensorId : Nat) (l : List Sensor)
    (h : ∀ x ∈ l, x.id ≠ sensorId) :
    (l.map fun s => if s.id = sensorId then { s with state := ackState s } else s)
      = l := by
  induction l with
  | nil => rfl
  | cons a l ih =>
    have ha : a.id ≠ sensorId := h a (List.mem_cons_self a l)
    have hl : ∀ x ∈ l, x.id ≠ sensorId := fun x hx => h x (List.mem_cons_of_mem a hx)
    simp [ha, ih hl]

/-- C4 counterexample: calling `acknowledgeSensor(5)` on the fresh state (no
sensor selected): the sensor with id 5 is "Kitchen Smoke", but the log
entry appended is "Acknowledged undefined" — the name in the log comes
from the `selectedSensor` cell, not from the acknowledged sensor. -/
theorem ack_logs_selected_name_cex :
    initialAppState.sensors[4]?.map Sensor.name = some "Kitchen Smoke" ∧
    (performSensorAck initialAppState 5 "T").logs.head?.map LogEntry.message =
      some "Acknowledged undefined" ∧
    some "Acknowledged undefined" ≠ some ("Acknowledged " ++ "Kitchen Smoke") := by
  decide

/-- C4 amended: for the unique registry sensor with the targeted id,
`acknowledgeSensor(sensorId)` resets that sensor's state to its normal
value per type (motion→idle, smoke→ok, camera→ok, door/window→closed),
leaves every other sensor alone, sets `alarmOn` to false regardless of the
prior `armed`/`alarmOn` values, and appends one log entry
`"Acknowledged <name>"` where `<name>` is the *currently selected*
sensor's name ("undefined" when none is selected) — which equals the
acknowledged sensor's name exactly when the selected sensor is the
targeted one. -/
theorem ack_resets_and_clears (st : AppState) (now : String)
    (pre post : List Sensor) (s : Sensor)
    (hsplit : st.sensors = pre ++ s :: post)
    (hpre : ∀ x ∈ pre, x.id ≠ s.id) (hpost : ∀ x ∈ post, x.id ≠ s.id) :
    (performSensorAck st s.id now).sensors =
      pre ++ { s with state := ackState s } :: post ∧
    (s.type = "motion" → ackState s = "idle") ∧
    (s.type = "smoke" → ackState s = "ok") ∧
    (s.type = "camera" → ackState s = "ok") ∧
    ((s.type = "door" ∨ s.type = "window") → ackState s = "closed") ∧
    (performSensorAck st s.id now).alarmOn = false ∧
    (performSensorAck st s.id now).armed = st.armed ∧
    (performSensorAck st s.id now).logs =
      pushLog ("Acknowledged " ++ selectedName st.selectedSensor) now st.logs ∧
    (st.selectedSensor = some s →
      (performSensorAck st s.id now).logs =
        pushLog ("Acknowledged " ++ s.name) now st.logs) := by
  refine ⟨?_, ?_, ?_, ?_, ?_, rfl, rfl, rfl, ?_⟩
  · simp only [performSensorAck, hsplit, List.map_append, List.map_cons]
    rw [ackMap_unmatched s.id pre hpre, ackMap_unmatched s.id post hpost]
    simp
  · intro h; simp [ackState, h]
  · intro h; simp [ackState, h]
  · intro h; simp [ackState, h]
  · rintro (h | h) <;> simp [ackState, h]
  · intro h
    simp [performSensorAck, h, selectedName]

/-- Witness for the amended C4: acknowledging the Kitchen Smoke sensor
while it is the selected one resets it to "ok", clears `alarmOn`, and
logs "Acknowledged Kitchen Smoke". -/
theorem ack_resets_and_clears_witness :
    (performSensorAck { initialAppState with selectedSensor := some kitchenSmoke }
        5 "T").sensors =
      [frontDoor, backWindow, livingRoomMotion, garageCamera,
       { kitchenSmoke with state := "ok" }] ∧
    ackState kitchenSmoke = "ok" ∧
    (performSensorAck { initialAppState with selectedSensor := some kitchenSmoke }
        5 "T").alarmOn = false ∧
    (performSensorAck { initialAppState with selectedSensor := some kitchenSmoke }
        5 "T").logs = pushLog ("Acknowledged " ++ "Kitchen Smoke") "T" [] :=
  have h := ack_resets_and_clears
    { initialAppState with selectedSensor := some kitchenSmoke } "T"
    [frontDoor, backWindow, livingRoomMotion, garageCamera] [] kitchenSmoke
    rfl (by decide) (by decide)
  ⟨h.1, h.2.2.1 rfl, h.2.2.2.2.2.1, h.2.2.2.2.2.2.2.2 rfl⟩

lemma pushLog_length_le (m t : String) (logs : List LogEntry) :
    (pushLog m t logs).length ≤ 200 := by
  simp [pushLog]

lemma pushHistory_length_le (e : SensorEvent) (h : List SensorEvent) :
    (pushHistory e h).length ≤ 30 := by
  simp [pushHistory]

lemma sensorUpdate_history_le (st : AppState) (sensorId : Nat)
    (forced : Option String) (now : String) (s : Sensor)
    (h : s.history.length ≤ 30) :
    (sensorUpdate st sensorId forced now s).1.history.length ≤ 30 := by
  simp only [sensorUpdate]
  split_ifs <;> simp [h, pushHistory_length_le]

lemma foldl_pushLog_le (pushes : List LogEntry) (logs : List LogEntry)
    (h : logs.length ≤ 200) :
    (pushes.foldl (fun logs e => pushLog e.message e.time logs) logs).length
      ≤ 200 := by
  induction pushes generalizing logs with
  | nil => exact h
  | cons e rest ih => exact ih _ (pushLog_length_le _ _ _)

/-- Every boundary command preserves the capacity bounds. -/
lemma applyOp_bounded (st : AppState) (op : Op) (h : Bounded st) :
    Bounded (applyOp st op) := by
  obtain ⟨hs, hl⟩ := h
  cases op with
  | trigger sensorId forced now =>
    constructor
    · intro x hx
      simp only [applyOp, simulateSensorEvent, List.map_map, List.mem_map,
        Function.comp] at hx
      obtain ⟨y, hy, rfl⟩ := hx
      exact sensorUpdate_history_le st sensorId forced now y (hs y hy)
    · exact foldl_pushLog_le _ _ hl
  | ack sensorId now =>
    constructor
    · intro x hx
      simp only [applyOp, performSensorAck, List.mem_map] at hx
      obtain ⟨y, hy, rfl⟩ := hx
      by_cases hid : y.id = sensorId <;> simp [hid, hs y hy]
    · exact pushLog_length_le _ _ _
  | arm now => exact ⟨hs, pushLog_length_le _ _ _⟩
  | disarm now => exact ⟨hs, pushLog_length_le _ _ _⟩
  | alarmToggle now => exact ⟨hs, pushLog_length_le _ _ _⟩
  | logsClear now => exact ⟨hs, pushLog_length_le _ _ _⟩
  | simToggle now => exact ⟨hs, pushLog_length_le _ _ _⟩
  | modalOpen s => exact ⟨hs, hl⟩
  | check name now => exact ⟨hs, pushLog_length_le _ _ _⟩

lemma run_bounded (ops : List Op) (st : AppState) (h : Bounded st) :
    Bounded (run st ops) := by
  induction ops generalizing st with
  | nil => exact h
  | cons op rest ih => exact ih (applyOp st op) (applyOp_bounded st op h)

lemma bounded_initial : Bounded initialAppState := by
  constructor
  · intro x hx
    fin_cases hx <;> simp [frontDoor, backWindow, livingRoomMotion,
      garageCamera, kitchenSmoke]
  · simp [initialAppState]

/-- C5: After every sequence of boundary commands from the fresh
state, every sensor's history has length at most 30 and the log has
length at most 200; each append places the new entry at the front and,
when the cap is reached, drops the oldest entry from the tail, keeping
all earlier entries in order. -/
theorem history_log_bounds (ops : List Op) (msg t : String)
    (logs : List LogEntry) (e : SensorEvent) (h : List SensorEvent) :
    Bounded (run initialAppState ops) ∧
    (pushLog msg t logs).head? = some { message := msg, time := t } ∧
    (logs.length < 200 →
      pushLog msg t logs = { message := msg, time := t } :: logs) ∧
    (logs.length = 200 →
      pushLog msg t logs = { message := msg, time := t } :: logs.dropLast) ∧
    (pushHistory e h).head? = some e ∧
    (h.length < 30 → pushHistory e h = e :: h) ∧
    (h.length = 30 → pushHistory e h = e :: h.dropLast) := by
  refine ⟨run_bounded ops initialAppState bounded_initial, ?_, ?_, ?_, ?_, ?_, ?_⟩
  · simp [pushLog, List.take_succ_cons]
  · intro hlt
    simp only [pushLog, List.take_succ_cons]
    rw [List.take_of_length_le (by omega)]
  · intro hcap
    simp only [pushLog, List.take_succ_cons]
    rw [List.dropLast_eq_take, hcap]
  · simp [pushHistory, List.take_succ_cons]
  · intro hlt
    simp only [pushHistory, List.take_succ_cons]
    rw [List.take_of_length_le (by omega)]
  · intro hcap
    simp only [pushHistory, List.take_succ_cons]
    rw [List.dropLast_eq_take, hcap]

/-- Witness for C5: the bounds hold after one command, a push on a short
log keeps all entries, and likewise for a history push. -/
theorem history_log_bounds_witness :
    Bounded (run initialAppState [Op.arm "T"]) ∧
    pushLog "m" "t" [] = [{ message := "m", time := "t" }] ∧
    pushHistory { time := "t", type := "open", note := "n" } [] =
      [{ time := "t", type := "open", note := "n" }] :=
  have hb := history_log_bounds [Op.arm "T"] "m" "t" []
    { time := "t", type := "open", note := "n" } []
  ⟨hb.1, hb.2.2.1 (by decide), hb.2.2.2.2.2.1 (by decide)⟩

/-- C9: After `clearLogs()` the log consists of exactly one entry,
`"Cleared logs"` (the `setLogs([])` is immediately followed by the
`pushLog`), so the log is never empty immediately after a clear performed
through the standard command. -/
theorem clearLogs_single_entry (st : AppState) (now : String) :
    (clearLogs st now).logs = [{ message := "Cleared logs", time := now }] ∧
    (clearLogs st now).logs ≠ [] := by
  constructor
  · rfl
  · intro h
    simp [clearLogs, pushLog] at h

lemma decodeEvent_encode (e : SensorEvent) : decodeEvent (encodeEvent e) = some e :=
  rfl

lemma decodeLog_encode (l : LogEntry) : decodeLog (encodeLog l) = some l :=
  rfl

lemma decodeList_encodeEvent (l : List SensorEvent) :
    decodeList decodeEvent (l.map encodeEvent) = some l := by
  induction l with
  | nil => rfl
  | cons e rest ih => simp [decodeList, decodeEvent_encode, ih]

lemma decodeList_encodeLog (l : List LogEntry) :
    decodeList decodeLog (l.map encodeLog) = some l := by
  induction l with
  | nil => rfl
  | cons e rest ih => simp [decodeList, decodeLog_encode, ih]

lemma decodeSensor_encode (s : Sensor) : decodeSensor (encodeSensor s) = some s := by
  obtain ⟨id, name, ty, state, lastEv, hist⟩ := s
  cases lastEv <;>
    simp [encodeSensor, decodeSensor, jsGet, getField, encodeLastEvent,
      decodeLastEvent, decodeList_encodeEvent]

lemma decodeList_encodeSensor (l : List Sensor) :
    decodeList decodeSensor (l.map encodeSensor) = some l := by
  induction l with
  | nil => rfl
  | cons s rest ih => simp [decodeList, decodeSensor_encode, ih]

/-- C7 counterexample: store content `"{}"` is present and parses
fine, yet it holds no usable state: all three initializers then return the
raw field value `undefined` (`Sum.inr none`) — not the documented defaults
(`initialSensors`, `false`, `[]`) — so unusable-but-parsable content does
reach the caller instead of falling back. -/
theorem load_unusable_content_not_defaults :
    loadedSensors (.parsed (.jobj [])) = Sum.inr none ∧
    loadedSensors (.parsed (.jobj [])) ≠ Sum.inl initialSensors ∧
    loadedArmed (.parsed (.jobj [])) = Sum.inr none ∧
    loadedArmed (.parsed (.jobj [])) ≠ Sum.inl false ∧
    loadedLogs (.parsed (.jobj [])) = Sum.inr none ∧
    loadedLogs (.parsed (.jobj [])) ≠ Sum.inl [] := by
  refine ⟨rfl, ?_, rfl, ?_, rfl, ?_⟩ <;> simp [loadedSensors, loadedArmed,
    loadedLogs, loadField, jsGet, getField]

/-- C7 amended: the three initializers fall back to the documented
defaults (the five named sensors in their initial states, `armed = false`,
an empty log) exactly when the fixed key is missing (or its value falsy),
its content cannot be parsed, or it parses to JSON `null` (member access
throws inside the `try`); content parsing to any other value has each
field taken from it verbatim — possibly `undefined` — even when unusable.
No case propagates an exception out of the initializers. -/
theorem load_defaults_iff (store : StoreState) :
    (loadedSensors store = Sum.inl initialSensors ∧
     loadedArmed store = Sum.inl false ∧
     loadedLogs store = Sum.inl []) ↔
    (store = .missing ∨ store = .unparsable ∨ store = .parsed .jnull) := by
  cases store with
  | missing => simp [loadedSensors, loadedArmed, loadedLogs, loadField]
  | unparsable => simp [loadedSensors, loadedArmed, loadedLogs, loadField]
  | parsed v =>
    cases v <;> simp [loadedSensors, loadedArmed, loadedLogs, loadField]

/-- C8: Saving a Snapshot to the store and then loading (successful
write and read) yields a Snapshot equal to the one saved: the three
initializers read back exactly the encoded fields, and decoding them
returns the original snapshot. -/
theorem save_load_roundtrip (snap : Snapshot) :
    decodeSnapshot (save snap) = some snap := by
  obtain ⟨sensors, armed, logs⟩ := snap
  simp [save, decodeSnapshot, loadedSensors, loadedArmed, loadedLogs,
    loadField, encodeSnapshot, jsGet, getField, decodeList_encodeSensor,
    decodeList_encodeLog]

/-- C10: The persisted snapshot — `{ sensors, armed, logs }`, also
when written from a state whose alarm is ringing — has no `alarmOn`
field, and `alarmOn` starts as the literal `useState(false)` on every
process start, whatever the store holds: a ringing alarm never survives a
restart. -/
theorem alarm_not_persisted (st : AppState) (store : StoreState) :
    jsGet (encodeSnapshot (snapshotOf st)) "alarmOn" = none ∧
    (startupValues store).alarmOnInit = false ∧
    (startupValues (save (snapshotOf st))).alarmOnInit = false := by
  refine ⟨?_, rfl, rfl⟩
  simp [snapshotOf, encodeSnapshot, jsGet, getField]

/-- Witness for C2: arm the fresh system, then trigger Front Door (closed
→ open, abnormal while armed): the alarm turns on and the triggered entry
tops the log; and on the untriggered fresh system (disarmed), the same
trigger leaves `alarmOn` unchanged. -/
theorem trigger_arming_check_witness :
    ((simulateSensorEvent (armSystem initialAppState "T0") 1 none "T").alarmOn = true ∧
     (simulateSensorEvent (armSystem initialAppState "T0") 1 none "T").logs =
       pushLog ("🚨 " ++ ("ALARM TRIGGERED: " ++ "Front Door" ++
           " detected activity while system armed")) "T"
         (pushLog ("Front Door" ++ " — " ++ "open") "T"
           (pushLog "System armed" "T0" []))) ∧
    (simulateSensorEvent initialAppState 1 none "T").alarmOn =
      initialAppState.alarmOn :=
  ⟨(trigger_arming_check (armSystem initialAppState "T0") none "T"
      [] [backWindow, livingRoomMotion, garageCamera, kitchenSmoke] frontDoor
      rfl (by decide) (by decide) rfl).1 ⟨rfl, Or.inl rfl⟩,
   (trigger_arming_check initialAppState none "T"
      [] [backWindow, livingRoomMotion, garageCamera, kitchenSmoke] frontDoor
      rfl (by decide) (by decide) rfl).2 (Or.inl rfl)⟩
